import Mathlib

/-!
Shallow embedding of the susttech-site contact endpoint (`src/api/contact.js`,
second revision: the one with the Turnstile check, IP denylist and gibberish
heuristics) and of the i18n language detector (`src/assets/i18n/i18n.js`).
Machine integers are modelled as `Nat` (timestamps from `Date.now()`), strings
as Lean `String`.  The two outbound network effects (Turnstile verification,
SMTP verify/send) are modelled by boolean oracles supplied to the handler,
together with flags recording whether each call was made.
-/

namespace SustTech

/-- Milliseconds in the rate-limit window (`WINDOW_MS = 60 * 1000`). -/
def WINDOW_MS : Nat := 60 * 1000

/-- Maximum accepted attempts per window (`MAX_PER_WINDOW = 5`). -/
def MAX_PER_WINDOW : Nat := 5

/-- Block duration in milliseconds (`BLOCK_MS = 60 * 60 * 1000`). -/
def BLOCK_MS : Nat := 60 * 60 * 1000

/-- Bad-event pruning window, the literal `10 * 60 * 1000` in `markBad`. -/
def BAD_WINDOW_MS : Nat := 10 * 60 * 1000

/-- Bad-event threshold, the literal `8` in `markBad`. -/
def BAD_THRESHOLD : Nat := 8

/-- Field caps from the source (`MAX_MESSAGE_LEN` etc.). -/
def MAX_MESSAGE_LEN : Nat := 5000

/-- Cap for the name field. -/
def MAX_NAME_LEN : Nat := 120

/-- Cap for the organization field. -/
def MAX_ORG_LEN : Nat := 200

/-- Cap for the interest field. -/
def MAX_INTEREST_LEN : Nat := 80

/-- Characters matched by the JavaScript regex class `\s` (whitespace). -/
def jsSpace (c : Char) : Bool :=
  let n := c.toNat
  n = 0x20 || n = 0x09 || n = 0x0A || n = 0x0B || n = 0x0C || n = 0x0D ||
  n = 0xA0 || n = 0x1680 || (0x2000 ≤ n && n ≤ 0x200A) || n = 0x2028 ||
  n = 0x2029 || n = 0x202F || n = 0x205F || n = 0x3000 || n = 0xFEFF

/-- JavaScript `String.prototype.trim`: strip `\s` characters from both ends. -/
def jsTrim (s : String) : String :=
  ⟨((s.data.dropWhile jsSpace).reverse.dropWhile jsSpace).reverse⟩

/-- The handler's `clean = s => String(s || "").trim()`; on a string input
this is exactly `trim` (an empty string maps to the empty string either way). -/
def clean (s : String) : String := jsTrim s

/-- JavaScript `slice(0, n)` on a string: the first `n` characters. -/
def strTake (s : String) (n : Nat) : String := ⟨s.data.take n⟩

/-- ASCII-adequate model of `toLowerCase`. -/
def strToLower (s : String) : String := ⟨s.data.map Char.toLower⟩

/-- JavaScript `String.prototype.includes pat` as used on the content type. -/
def hasSubstr (s pat : String) : Bool :=
  (List.range (s.data.length + 1)).any fun i => pat.data.isPrefixOf (s.data.drop i)

/-- One `{ ip, time }` record of the `hits` / `badHits` arrays. -/
structure Hit where
  ip : String
  time : Nat
deriving Repr, DecidableEq

/-- The pruning pass of `rateLimited`: keep hits with `now - h.time < WINDOW_MS`. -/
def pruneHits (now : Nat) (hits : List Hit) : List Hit :=
  hits.filter fun h => now - h.time < WINDOW_MS

/-- Embedding of `rateLimited(ip)`; `hits` is the module-level array, `now` is
`Date.now()`.  Returns the boolean result and the updated `hits`. -/
def rateLimited (hits : List Hit) (ip : String) (now : Nat) : Bool × List Hit :=
  let hits := pruneHits now hits
  let count := (hits.filter fun h => h.ip == ip).length
  if MAX_PER_WINDOW ≤ count then (true, hits)
  else (false, hits ++ [⟨ip, now⟩])

/-- The `blocked` map (`Map` from ip to expiry timestamp), as an association list. -/
def BlockMap := List (String × Nat)

/-- JavaScript `Map.get`. -/
def mapGet (m : List (String × Nat)) (k : String) : Option Nat :=
  (m.find? fun p => p.1 == k).map (·.2)

/-- JavaScript `Map.set` (replaces an existing binding, else appends). -/
def mapSet (m : List (String × Nat)) (k : String) (v : Nat) : List (String × Nat) :=
  if m.any (fun p => p.1 == k) then
    m.map fun p => if p.1 == k then (k, v) else p
  else m ++ [(k, v)]

/-- JavaScript `Map.delete`. -/
def mapDelete (m : List (String × Nat)) (k : String) : List (String × Nat) :=
  m.filter fun p => ¬ p.1 == k

/-- Embedding of `isBlocked(ip)`: the lookup is truthy (nonzero) and unexpired;
an expired entry is deleted lazily.  Returns the result and the updated map. -/
def isBlocked (blocked : List (String × Nat)) (ip : String) (now : Nat) :
    Bool × List (String × Nat) :=
  match mapGet blocked ip with
  | some untilTs =>
      if untilTs ≠ 0 ∧ now < untilTs then (true, blocked)
      else if untilTs ≠ 0 ∧ untilTs ≤ now then (false, mapDelete blocked ip)
      else (false, blocked)
  | none => (false, blocked)

/-- Embedding of `punish(ip, ms = BLOCK_MS)`. -/
def punish (blocked : List (String × Nat)) (ip : String) (now : Nat) :
    List (String × Nat) :=
  mapSet blocked ip (now + BLOCK_MS)

/-- The `badHits` array after `markBad(ip)`: push the new event, then prune to
the last ten minutes. -/
def markBadHits (badHits : List Hit) (ip : String) (now : Nat) : List Hit :=
  (badHits ++ [Hit.mk ip now]).filter fun h => now - h.time < BAD_WINDOW_MS

/-- Embedding of `markBad(ip)`: returns the new `badHits` and `blocked`. -/
def markBad (badHits : List Hit) (blocked : List (String × Nat)) (ip : String)
    (now : Nat) : List Hit × List (String × Nat) :=
  let bh := markBadHits badHits ip now
  let count := (bh.filter fun h => h.ip == ip).length
  if BAD_THRESHOLD ≤ count then (bh, punish blocked ip now) else (bh, blocked)

/-- ASCII letter, the class kept by `replace(/[^a-z]/gi, "")`. -/
def isAsciiLetter (c : Char) : Bool :=
  ('a' ≤ c && c ≤ 'z') || ('A' ≤ c && c ≤ 'Z')

/-- Vowels of the `/[aeiou]/gi` count. -/
def isVowel (c : Char) : Bool :=
  c = 'a' || c = 'e' || c = 'i' || c = 'o' || c = 'u' ||
  c = 'A' || c = 'E' || c = 'I' || c = 'O' || c = 'U'

/-- The class `[bcdfghjklmnpqrstvwxyz]` under the `/i` flag. -/
def isConsonant (c : Char) : Bool := isAsciiLetter c && ¬ isVowel c

/-- Does the list contain a run of at least six consecutive consonants
(`/[bcdfghjklmnpqrstvwxyz]{6,}/i.test`)?  `n` counts the current run. -/
def consonantRunFrom (n : Nat) : List Char → Bool
  | [] => false
  | c :: r =>
      if isConsonant c then
        if 6 ≤ n + 1 then true else consonantRunFrom (n + 1) r
      else consonantRunFrom 0 r

/-- Test of `/[bcdfghjklmnpqrstvwxyz]{6,}/i`. -/
def hasConsonantRun (l : List Char) : Bool := consonantRunFrom 0 l

/-- The class `[A-Za-z0-9+/=]` of the base64-like pattern. -/
def isB64Char (c : Char) : Bool :=
  isAsciiLetter c || ('0' ≤ c && c ≤ '9') || c = '+' || c = '/' || c = '='

/-- Test of `/^[A-Za-z0-9+\/=]{20,}$/` on the original string. -/
def base64Like (s : String) : Bool :=
  20 ≤ s.data.length && s.data.all isB64Char

/-- Embedding of `looksGibberish(s)`.  The vowel-ratio comparisons
`ratio < 0.15` and `ratio > 0.7` are modelled exactly over the rationals
(`20 * vow < 3 * len` and `10 * vow > 7 * len`); the double rounding of the
source only matters on the boundary, which no theorem below touches. -/
def looksGibberish (s : String) : Bool :=
  let t := s.data.filter isAsciiLetter
  if t.length = 0 then true
  else
    let vow := (t.filter isVowel).length
    if 20 * vow < 3 * t.length then true
    else if 7 * t.length < 10 * vow then true
    else if hasConsonantRun t then true
    else if base64Like s then true
    else false

/-- Scanner phase three of `/\S+\s+\S+/`: looking for a non-space. -/
def twoWordsPhase2 : List Char → Bool
  | [] => false
  | c :: r => if ¬ jsSpace c then true else twoWordsPhase2 r

/-- Scanner phase two of `/\S+\s+\S+/`: a non-space was seen, looking for a space. -/
def twoWordsPhase1 : List Char → Bool
  | [] => false
  | c :: r => if jsSpace c then twoWordsPhase2 r else twoWordsPhase1 r

/-- Scanner phase one of `/\S+\s+\S+/`: looking for the first non-space. -/
def twoWordsPhase0 : List Char → Bool
  | [] => false
  | c :: r => if ¬ jsSpace c then twoWordsPhase1 r else twoWordsPhase0 r

/-- Embedding of `hasTwoWords = s => /\S+\s+\S+/.test(s)`: the string contains,
in order, a non-space, a space, and a non-space character. -/
def hasTwoWords (s : String) : Bool := twoWordsPhase0 s.data

/-- ASCII lower-casing for the `/i` flag of the URL count. -/
def asciiLower (c : Char) : Char :=
  if 'A' ≤ c ∧ c ≤ 'Z' then Char.ofNat (c.toNat + 32) else c

/-- Count of non-overlapping matches of `/https?:\/\//gi`, leftmost first,
greedy on the optional `s`.  `fuel` (instantiated with the list length, which
always suffices since every step consumes at least one character) makes the
recursion structural so that it evaluates inside the kernel. -/
def countUrlsAux : Nat → List Char → Nat
  | 0, _ => 0
  | _, [] => 0
  | fuel + 1, c :: r =>
      if ((c :: r).take 8).map asciiLower = "https://".data then
        1 + countUrlsAux fuel (r.drop 7)
      else if ((c :: r).take 7).map asciiLower = "http://".data then
        1 + countUrlsAux fuel (r.drop 6)
      else countUrlsAux fuel r

/-- Count of non-overlapping matches of `/https?:\/\//gi`. -/
def countUrls (l : List Char) : Nat := countUrlsAux l.length l

/-- Embedding of `tooManyUrls = s => (s.match(/https?:\/\//gi) || []).length > 2`. -/
def tooManyUrls (s : String) : Bool := 2 < countUrls s.data

/-- Does the list of characters contain a `.` at an interior position (not
first, not last)?  This is what `[^\s@]+\.[^\s@]+` demands of the part after
the `@`, once whitespace-freedom is known. -/
def interiorDot (l : List Char) : Bool :=
  (List.range l.length).any fun j => l.getD j ' ' = '.' && 0 < j && j + 1 < l.length

/-- Embedding of `/^[^\s@]+@[^\s@]+\.[^\s@]+$/.test(s)`: exactly one `@`, no
whitespace anywhere, a nonempty part before the `@`, and a dot strictly inside
the part after it. -/
def emailRegexTest (s : String) : Bool :=
  let cs := s.data
  cs.count '@' = 1 && cs.all (fun c => ¬ jsSpace c) &&
  (let i := cs.findIdx (· = '@')
   decide (0 < i) && interiorDot (cs.drop (i + 1)))

/-- Global replacement of one character by a string, the semantics of
`.replace(/c/g, r)` for a single-character pattern. -/
def replaceChar (c : Char) (r : List Char) : List Char → List Char
  | [] => []
  | a :: rest => (if a = c then r else [a]) ++ replaceChar c r rest

/-- The four sequential global replaces of `escapeHtml`
(`&`, then `<`, then `>`, then `"`), on character lists. -/
def escChars (l : List Char) : List Char :=
  replaceChar '"' "&quot;".data
    (replaceChar '>' "&gt;".data
      (replaceChar '<' "&lt;".data
        (replaceChar '&' "&amp;".data l)))

/-- Embedding of `escapeHtml`. -/
def escapeHtml (s : String) : String := ⟨escChars s.data⟩

/-- What one input character contributes to the output of `escapeHtml`. -/
def escPiece (c : Char) : List Char :=
  if c = '&' then "&amp;".data
  else if c = '<' then "&lt;".data
  else if c = '>' then "&gt;".data
  else if c = '"' then "&quot;".data
  else [c]

/-- An incoming request: method, raw content-type header (`""` when absent, as
`|| ""` makes it), the body fields after destructuring with `""` defaults, and
the two IP sources. -/
structure Request where
  method : String
  contentType : String
  name : String
  email : String
  organization : String
  interest : String
  org : String
  topic : String
  message : String
  gotcha : String
  turnstileToken : String
  xForwardedFor : Option String
  remoteAddress : Option String
deriving Repr, DecidableEq

/-- JavaScript `String.prototype.split` with a one-character separator
(structural, so that it evaluates inside the kernel). -/
def splitOnChar (c : Char) : List Char → List (List Char)
  | [] => [[]]
  | a :: r =>
      let rest := splitOnChar c r
      if a = c then [] :: rest else (a :: rest.headD []) :: rest.tail

/-- Embedding of the IP computation:
`req.headers["x-forwarded-for"]?.split(",")[0]?.trim() || req.socket?.remoteAddress || "unknown"`. -/
def computeIp (req : Request) : String :=
  let fromXff :=
    match req.xForwardedFor with
    | some s => jsTrim ⟨(splitOnChar ',' s.data).headD []⟩
    | none => ""
  if fromXff ≠ "" then fromXff
  else
    match req.remoteAddress with
    | some a => if a ≠ "" then a else "unknown"
    | none => "unknown"

/-- The module-level mutable state of the endpoint. -/
structure AbuseState where
  hits : List Hit
  blocked : List (String × Nat)
  badHits : List Hit
deriving Repr, DecidableEq

/-- Outcomes of the external calls the handler makes: the Turnstile
verification result (`data.success`), the resolved SMTP credentials
(`""` meaning absent), and the SMTP verify / send outcomes. -/
structure Ext where
  captchaOk : Bool
  smtpUser : String
  smtpPass : String
  verifyOk : Bool
  sendOk : Bool
deriving Repr, DecidableEq

/-- The ordered gates of the handler. -/
inductive Gate where
  | method
  | ctype
  | honeypot
  | block
  | rate
  | captcha
  | fields
deriving Repr, DecidableEq

/-- The canonical gate order of the spec. -/
def gateOrder : List Gate :=
  [Gate.method, Gate.ctype, Gate.honeypot, Gate.block, Gate.rate,
   Gate.captcha, Gate.fields]

/-- The field values used to compose the outbound email. -/
structure MailData where
  name : String
  email : String
  org : String
  interest : String
  message : String
  ip : String
deriving Repr, DecidableEq

/-- The HTML body composed by the handler, with every user-supplied value
passed through `escapeHtml` (and the message's newlines turned into `<br>`). -/
def htmlBody (m : MailData) : String :=
  "\n      <h2>Nuevo contacto (SustTech)</h2>\n      <p><b>Nombre:</b> " ++
  escapeHtml m.name ++
  "</p>\n      <p><b>Email:</b> " ++
  escapeHtml m.email ++
  "</p>\n      <p><b>Organización:</b> " ++
  escapeHtml (if m.org = "" then "-" else m.org) ++
  "</p>\n      <p><b>Interés:</b> " ++
  escapeHtml (if m.interest = "" then "-" else m.interest) ++
  "</p>\n      <p><b>Mensaje:</b><br>" ++
  ⟨replaceChar '\n' "<br>".data (escapeHtml m.message).data⟩ ++
  "</p>\n      <hr>\n      <p style=\"font-size:12px;color:#64748b\">IP: " ++
  escapeHtml m.ip ++
  "</p>\n    "

/-- The observable result of one handler invocation. -/
structure HandlerResult where
  status : Nat
  ok : Bool
  error : Option String
  emailAttempted : Bool
  mail : Option MailData
  captchaCalled : Bool
  trace : List Gate
  state : AbuseState
deriving Repr, DecidableEq

/-- The source's `const vName = clean(name).slice(0, MAX_NAME_LEN)`. -/
def vName (req : Request) : String := strTake (clean req.name) MAX_NAME_LEN

/-- The source's `const vEmail = clean(email).toLowerCase()`. -/
def vEmail (req : Request) : String := strToLower (clean req.email)

/-- The source's `const vOrg = clean(organization || org).slice(0, MAX_ORG_LEN)`. -/
def vOrg (req : Request) : String :=
  strTake (clean (if req.organization ≠ "" then req.organization else req.org))
    MAX_ORG_LEN

/-- The source's `const vInterest = clean(interest || topic).slice(0, MAX_INTEREST_LEN)`. -/
def vInterest (req : Request) : String :=
  strTake (clean (if req.interest ≠ "" then req.interest else req.topic))
    MAX_INTEREST_LEN

/-- The source's `const vMessage = clean(message).slice(0, MAX_MESSAGE_LEN)`. -/
def vMessage (req : Request) : String :=
  strTake (clean req.message) MAX_MESSAGE_LEN

/-- The part of `handler` from `// normalize inputs` onward: field cleaning,
validation with its `markBad` calls, the SMTP env/verify/send sequence.
`st2` is the module state after the block and rate gates, `ip` the computed
caller IP.  Error strings with dynamic interpolations are modelled by their
fixed prefixes. -/
def validateAndSend (ext : Ext) (now : Nat) (st2 : AbuseState) (req : Request)
    (ip : String) : HandlerResult :=
  if vName req = "" ∨ vEmail req = "" ∨ vMessage req = "" then
    ⟨400, false, some "name, email and message are required.", false,
     none, true, gateOrder, st2⟩
  else if ¬ emailRegexTest (vEmail req) then
    let mb := markBad st2.badHits st2.blocked ip now
    ⟨400, false, some "Invalid email.", false, none, true, gateOrder,
     ⟨st2.hits, mb.2, mb.1⟩⟩
  else if ¬ hasTwoWords (vName req) ∨ looksGibberish (vName req) then
    let mb := markBad st2.badHits st2.blocked ip now
    ⟨400, false, some "Invalid name.", false, none, true, gateOrder,
     ⟨st2.hits, mb.2, mb.1⟩⟩
  else if vOrg req ≠ "" ∧ looksGibberish (vOrg req) then
    let mb := markBad st2.badHits st2.blocked ip now
    ⟨400, false, some "Invalid organization.", false, none, true,
     gateOrder, ⟨st2.hits, mb.2, mb.1⟩⟩
  else if (vMessage req).data.length < 20 ∨ tooManyUrls (vMessage req) ∨
      looksGibberish (vMessage req) then
    let mb := markBad st2.badHits st2.blocked ip now
    ⟨400, false, some "Invalid message.", false, none, true, gateOrder,
     ⟨st2.hits, mb.2, mb.1⟩⟩
  else if ext.smtpUser = "" ∨ ext.smtpPass = "" then
    ⟨500, false, some "SMTP credentials missing.", false, none, true,
     gateOrder, st2⟩
  else if ¬ ext.verifyOk then
    ⟨500, false, some "SMTP verify failed:", false, none, true,
     gateOrder, st2⟩
  else
    let m : MailData := ⟨vName req, vEmail req, vOrg req, vInterest req,
      vMessage req, ip⟩
    if ¬ ext.sendOk then
      ⟨500, false, some "SMTP send failed:", true, some m, true,
       gateOrder, st2⟩
    else
      ⟨200, true, none, true, some m, true, gateOrder, st2⟩

/-- Embedding of the exported `handler`.  `now` models `Date.now()` for this
invocation, `st` the module state on entry, `ext` the outcomes of the external
calls. -/
def handler (ext : Ext) (now : Nat) (st : AbuseState) (req : Request) :
    HandlerResult :=
  if req.method ≠ "POST" then
    ⟨405, false, some "Method not allowed", false, none, false, [Gate.method], st⟩
  else if ¬ hasSubstr (strToLower req.contentType) "application/json" then
    ⟨400, false, some "Send JSON body", false, none, false,
     [Gate.method, Gate.ctype], st⟩
  else if req.gotcha ≠ "" ∧ jsTrim req.gotcha ≠ "" then
    ⟨200, true, none, false, none, false,
     [Gate.method, Gate.ctype, Gate.honeypot], st⟩
  else
    let ip := computeIp req
    let bl := isBlocked st.blocked ip now
    let st1 : AbuseState := ⟨st.hits, bl.2, st.badHits⟩
    if bl.1 then
      ⟨403, false, some "IP temporarily blocked.", false, none, false,
       [Gate.method, Gate.ctype, Gate.honeypot, Gate.block], st1⟩
    else
      let rl := rateLimited st1.hits ip now
      let st2 : AbuseState := ⟨rl.2, st1.blocked, st1.badHits⟩
      if rl.1 then
        ⟨429, false, some "Too many requests, try again later.", false, none,
         false, [Gate.method, Gate.ctype, Gate.honeypot, Gate.block, Gate.rate],
         st2⟩
      else if req.turnstileToken = "" then
        let mb := markBad st2.badHits st2.blocked ip now
        ⟨400, false, some "missing_turnstile_token", false, none, false,
         [Gate.method, Gate.ctype, Gate.honeypot, Gate.block, Gate.rate,
          Gate.captcha], ⟨st2.hits, mb.2, mb.1⟩⟩
      else if ¬ ext.captchaOk then
        let mb := markBad st2.badHits st2.blocked ip now
        ⟨400, false, some "turnstile_failed", false, none, true,
         [Gate.method, Gate.ctype, Gate.honeypot, Gate.block, Gate.rate,
          Gate.captcha], ⟨st2.hits, mb.2, mb.1⟩⟩
      else
        validateAndSend ext now st2 req ip

/-- Supported languages of the i18n script. -/
def LANGS : List String := ["en", "es", "pt"]

/-- Default language of the i18n script. -/
def DEFAULT_LANG : String := "en"

/-- First non-empty segment of `location.pathname.split('/')`
(`filter(Boolean)[0]`, `none` when the array is empty). -/
def langFromPath (pathname : String) : Option String :=
  (((splitOnChar '/' pathname.data).map fun l => (⟨l⟩ : String)).filter
    fun x => x ≠ "").head?

/-- Third and fourth steps of `detectLang`: stored preference, then default. -/
def detectLangSaved (saved : Option String) : String :=
  match saved with
  | some s => if LANGS.contains s then s else DEFAULT_LANG
  | none => DEFAULT_LANG

/-- Second step of `detectLang`: the URL path segment
(`LANGS.includes(undefined)` is false, hence the `none` fall-through). -/
def detectLangNoForced (pathname : String) (saved : Option String) : String :=
  match langFromPath pathname with
  | some p => if LANGS.contains p then p else detectLangSaved saved
  | none => detectLangSaved saved

/-- Embedding of `detectLang` from `i18n.js`: forced override (truthy and
supported), then URL path segment, then stored preference, then default. -/
def detectLang (forced : Option String) (pathname : String)
    (saved : Option String) : String :=
  match forced with
  | some f =>
      if f ≠ "" && LANGS.contains f then f
      else detectLangNoForced pathname saved
  | none => detectLangNoForced pathname saved

/-! ## Helper lemmas -/

theorem contains_LANGS_iff (f : String) : LANGS.contains f = true ↔ f ∈ LANGS := by
  simp [List.contains]

theorem mem_LANGS_ne_empty {f : String} (h : f ∈ LANGS) : f ≠ "" := by
  simp [LANGS] at h
  rcases h with h | h | h <;> subst h <;> decide

theorem detectLangSaved_mem (saved : Option String) :
    detectLangSaved saved ∈ LANGS := by
  cases saved with
  | none => decide
  | some s =>
      simp only [detectLangSaved]
      by_cases h : LANGS.contains s = true
      · rw [if_pos h]; exact (contains_LANGS_iff s).mp h
      · rw [if_neg h]; decide

theorem detectLangNoForced_mem (pathname : String) (saved : Option String) :
    detectLangNoForced pathname saved ∈ LANGS := by
  unfold detectLangNoForced
  split
  · rename_i p _
    by_cases h : LANGS.contains p = true
    · rw [if_pos h]; exact (contains_LANGS_iff p).mp h
    · rw [if_neg h]; exact detectLangSaved_mem saved
  · exact detectLangSaved_mem saved

/-- C8: `detectLang` picks the forced override, then the URL path segment,
then the stored preference, then the default, each candidate used only when it
is a supported language; in every case the result is a supported language and
the final fallback is `"en"`. -/
theorem C8_detectLang_precedence :
    (∀ forced pathname saved, detectLang forced pathname saved ∈ LANGS)
    ∧ (∀ f pathname saved, f ∈ LANGS →
        detectLang (some f) pathname saved = f)
    ∧ (∀ forced pathname saved p,
        (∀ f, forced = some f → f ∉ LANGS) →
        langFromPath pathname = some p → p ∈ LANGS →
        detectLang forced pathname saved = p)
    ∧ (∀ forced pathname saved s,
        (∀ f, forced = some f → f ∉ LANGS) →
        (∀ p, langFromPath pathname = some p → p ∉ LANGS) →
        saved = some s → s ∈ LANGS →
        detectLang forced pathname saved = s)
    ∧ (∀ forced pathname saved,
        (∀ f, forced = some f → f ∉ LANGS) →
        (∀ p, langFromPath pathname = some p → p ∉ LANGS) →
        (∀ s, saved = some s → s ∉ LANGS) →
        detectLang forced pathname saved = DEFAULT_LANG) := by
  have hNoForced : ∀ pathname saved p,
      langFromPath pathname = some p → p ∈ LANGS →
      detectLangNoForced pathname saved = p := by
    intro pathname saved p hp hmem
    unfold detectLangNoForced
    split
    · rename_i q heq
      rw [hp] at heq
      cases heq
      rw [if_pos ((contains_LANGS_iff p).mpr hmem)]
    · rename_i heq
      rw [hp] at heq
      cases heq
  have hSkipForced : ∀ (forced : Option String) pathname saved,
      (∀ f, forced = some f → f ∉ LANGS) →
      detectLang forced pathname saved = detectLangNoForced pathname saved := by
    intro forced pathname saved hf
    cases forced with
    | none => rfl
    | some f =>
        simp only [detectLang]
        have h : ¬ (f ≠ "" && LANGS.contains f) = true := by
          simp only [Bool.and_eq_true, decide_eq_true_eq, not_and]
          intro _ hc
          exact hf f rfl ((contains_LANGS_iff f).mp hc)
        rw [if_neg h]
  have hSkipPath : ∀ pathname saved,
      (∀ p, langFromPath pathname = some p → p ∉ LANGS) →
      detectLangNoForced pathname saved = detectLangSaved saved := by
    intro pathname saved hp
    unfold detectLangNoForced
    split
    · rename_i p heq
      rw [if_neg]
      intro hc
      exact hp p heq ((contains_LANGS_iff p).mp hc)
    · rfl
  refine ⟨?_, ?_, ?_, ?_, ?_⟩
  · intro forced pathname saved
    cases forced with
    | none => exact detectLangNoForced_mem pathname saved
    | some f =>
        simp only [detectLang]
        by_cases h : (f ≠ "" && LANGS.contains f) = true
        · rw [if_pos h]
          exact (contains_LANGS_iff f).mp ((Bool.and_eq_true _ _).mp h).2
        · rw [if_neg h]; exact detectLangNoForced_mem pathname saved
  · intro f pathname saved hmem
    simp only [detectLang]
    rw [if_pos]
    simp only [Bool.and_eq_true, decide_eq_true_eq]
    exact ⟨mem_LANGS_ne_empty hmem, (contains_LANGS_iff f).mpr hmem⟩
  · intro forced pathname saved p hf hp hmem
    rw [hSkipForced forced pathname saved hf]
    exact hNoForced pathname saved p hp hmem
  · intro forced pathname saved s hf hp hs hmem
    rw [hSkipForced forced pathname saved hf, hSkipPath pathname saved hp, hs]
    simp only [detectLangSaved]
    rw [if_pos ((contains_LANGS_iff s).mpr hmem)]
  · intro forced pathname saved hf hp hs
    rw [hSkipForced forced pathname saved hf, hSkipPath pathname saved hp]
    cases hq : saved with
    | none => rfl
    | some s =>
        simp only [detectLangSaved]
        rw [if_neg]
        intro hc
        exact hs s hq ((contains_LANGS_iff s).mp hc)

/-- Witness for C8 at a concrete input: a supported path segment wins over the
stored preference when no override is forced. -/
theorem C8_witness : detectLang none "/pt/servicios" (some "es") = "pt" :=
  C8_detectLang_precedence.2.2.1 none "/pt/servicios" (some "es") "pt"
    (by intro f h; cases h) (by decide) (by decide)

set_option maxHeartbeats 1000000 in
theorem validateAndSend_mail_inv (ext : Ext) (now : Nat) (st2 : AbuseState)
    (req : Request) (ip : String) (m : MailData)
    (h : (validateAndSend ext now st2 req ip).mail = some m) :
    m = MailData.mk (vName req) (vEmail req) (vOrg req) (vInterest req)
      (vMessage req) ip := by
  simp only [validateAndSend] at h
  repeat' split at h
  all_goals dsimp only at h
  all_goals try exact Option.noConfusion h
  all_goals (injection h with h; exact h.symm)

set_option maxHeartbeats 1000000 in
theorem handler_mail_inv (ext : Ext) (now : Nat) (st : AbuseState)
    (req : Request) (m : MailData)
    (h : (handler ext now st req).mail = some m) :
    m = MailData.mk (vName req) (vEmail req) (vOrg req) (vInterest req)
      (vMessage req) (computeIp req) := by
  simp only [handler] at h
  repeat' split at h
  all_goals try exact Option.noConfusion h
  exact validateAndSend_mail_inv _ _ _ _ _ _ h

theorem replaceChar_append (c : Char) (r l1 l2 : List Char) :
    replaceChar c r (l1 ++ l2) = replaceChar c r l1 ++ replaceChar c r l2 := by
  induction l1 with
  | nil => rfl
  | cons a t ih => simp [replaceChar, ih, List.append_assoc]

theorem escChars_cons (a : Char) (l : List Char) :
    escChars (a :: l) = escPiece a ++ escChars l := by
  show escChars ([a] ++ l) = _
  unfold escChars
  rw [replaceChar_append, replaceChar_append, replaceChar_append,
    replaceChar_append]
  congr 1
  by_cases h1 : a = '&'
  · subst h1; decide
  by_cases h2 : a = '<'
  · subst h2; decide
  by_cases h3 : a = '>'
  · subst h3; decide
  by_cases h4 : a = '"'
  · subst h4; decide
  simp [replaceChar, escPiece, h1, h2, h3, h4]

theorem escChars_eq_flatMap (l : List Char) : escChars l = l.flatMap escPiece := by
  induction l with
  | nil => rfl
  | cons a t ih => rw [escChars_cons, List.flatMap_cons, ih]

theorem escPiece_cases (a : Char) :
    escPiece a = "&amp;".data ∨ escPiece a = "&lt;".data ∨
    escPiece a = "&gt;".data ∨ escPiece a = "&quot;".data ∨
    (escPiece a = [a] ∧ a ≠ '&' ∧ a ≠ '<' ∧ a ≠ '>' ∧ a ≠ '"') := by
  unfold escPiece
  split_ifs with h1 h2 h3 h4
  · exact Or.inl rfl
  · exact Or.inr (Or.inl rfl)
  · exact Or.inr (Or.inr (Or.inl rfl))
  · exact Or.inr (Or.inr (Or.inr (Or.inl rfl)))
  · exact Or.inr (Or.inr (Or.inr (Or.inr ⟨rfl, h1, h2, h3, h4⟩)))

theorem escPiece_no_special (a c : Char) (h : c ∈ escPiece a) :
    c ≠ '<' ∧ c ≠ '>' ∧ c ≠ '"' := by
  rcases escPiece_cases a with e | e | e | e | ⟨e, h1, h2, h3, h4⟩ <;> rw [e] at h
  · fin_cases h <;> exact ⟨by decide, by decide, by decide⟩
  · fin_cases h <;> exact ⟨by decide, by decide, by decide⟩
  · fin_cases h <;> exact ⟨by decide, by decide, by decide⟩
  · fin_cases h <;> exact ⟨by decide, by decide, by decide⟩
  · simp only [List.mem_singleton] at h
    subst h
    exact ⟨h2, h3, h4⟩

/-- C10: `escapeHtml` output contains no `<`, `>`, `"`, and consists of
entity pieces (each starting with `&`) and single non-special characters, so
`&` occurs only as the head of an inserted entity; the mail composed by the
handler carries exactly the cleaned request fields and the caller IP, and the
HTML body interpolates each of those fields through `escapeHtml` (the message
additionally via the newline-to-br replacement). -/
theorem C10_escapeHtml_safety :
    (∀ s : String,
        '<' ∉ (escapeHtml s).data ∧ '>' ∉ (escapeHtml s).data ∧
        '"' ∉ (escapeHtml s).data ∧
        ∃ pieces : List (List Char),
          (escapeHtml s).data = pieces.flatten ∧
          ∀ p ∈ pieces, p = "&amp;".data ∨ p = "&lt;".data ∨ p = "&gt;".data ∨
            p = "&quot;".data ∨
            ∃ c, p = [c] ∧ c ≠ '&' ∧ c ≠ '<' ∧ c ≠ '>' ∧ c ≠ '"')
    ∧ (∀ ext now st req m, (handler ext now st req).mail = some m →
        m = MailData.mk (vName req) (vEmail req) (vOrg req) (vInterest req)
          (vMessage req) (computeIp req))
    ∧ (∀ m : MailData, ∃ t1 t2 t3 t4 t5 t6 t7 : String,
        htmlBody m = t1 ++ escapeHtml m.name ++ t2 ++ escapeHtml m.email ++
          t3 ++ escapeHtml (if m.org = "" then "-" else m.org) ++
          t4 ++ escapeHtml (if m.interest = "" then "-" else m.interest) ++
          t5 ++ ⟨replaceChar '\n' "<br>".data (escapeHtml m.message).data⟩ ++
          t6 ++ escapeHtml m.ip ++ t7) := by
  refine ⟨?_, ?_, ?_⟩
  · intro s
    have hdata : (escapeHtml s).data = s.data.flatMap escPiece := by
      cases s with
      | mk l => exact escChars_eq_flatMap l
    refine ⟨?_, ?_, ?_, s.data.map escPiece, ?_, ?_⟩
    · intro h
      rw [hdata] at h
      rcases List.mem_flatMap.mp h with ⟨a, _, hin⟩
      exact (escPiece_no_special a '<' hin).1 rfl
    · intro h
      rw [hdata] at h
      rcases List.mem_flatMap.mp h with ⟨a, _, hin⟩
      exact (escPiece_no_special a '>' hin).2.1 rfl
    · intro h
      rw [hdata] at h
      rcases List.mem_flatMap.mp h with ⟨a, _, hin⟩
      exact (escPiece_no_special a '"' hin).2.2 rfl
    · rw [hdata, List.flatMap_def]
    · intro p hp
      rcases List.mem_map.mp hp with ⟨a, _, rfl⟩
      rcases escPiece_cases a with e | e | e | e | ⟨e, h1, h2, h3, h4⟩
      · exact Or.inl e
      · exact Or.inr (Or.inl e)
      · exact Or.inr (Or.inr (Or.inl e))
      · exact Or.inr (Or.inr (Or.inr (Or.inl e)))
      · exact Or.inr (Or.inr (Or.inr (Or.inr ⟨a, e, h1, h2, h3, h4⟩)))
  · intro ext now st req m h
    exact handler_mail_inv ext now st req m h
  · intro m
    exact ⟨"\n      <h2>Nuevo contacto (SustTech)</h2>\n      <p><b>Nombre:</b> ",
      "</p>\n      <p><b>Email:</b> ",
      "</p>\n      <p><b>Organización:</b> ",
      "</p>\n      <p><b>Interés:</b> ",
      "</p>\n      <p><b>Mensaje:</b><br>",
      "</p>\n      <hr>\n      <p style=\"font-size:12px;color:#64748b\">IP: ",
      "</p>\n    ", rfl⟩

/-! ## Concrete fixtures used by witnesses and counterexamples -/

/-- External-call oracle where everything succeeds and credentials exist. -/
def extAll : Ext := ⟨true, "user", "pass", true, true⟩

/-- Fresh module state. -/
def stEmpty : AbuseState := ⟨[], [], []⟩

/-- A benign, fully valid request. -/
def reqBase : Request :=
  ⟨"POST", "application/json", "John Smith", "john@example.com", "", "", "",
   "", "hello there friend this is a nice message today", "", "token-1",
   some "1.2.3.4", none⟩

/-- The mail data the handler composes for `reqBase`. -/
def mailBase : MailData :=
  ⟨"John Smith", "john@example.com", "", "",
   "hello there friend this is a nice message today", "1.2.3.4"⟩

/-- C5: every submission field is cleaned by trim and capped at its maximum
length before the mail is composed: the composed mail's fields are exactly the
trim-then-cap images of the request fields (email trimmed and lower-cased),
and hence satisfy the length bounds 120/200/80/5000. -/
theorem C5_trim_and_cap :
    (∀ s n, (strTake (clean s) n).data.length ≤ n)
    ∧ (∀ ext now st req m, (handler ext now st req).mail = some m →
        m.name = strTake (clean req.name) MAX_NAME_LEN
        ∧ m.email = strToLower (clean req.email)
        ∧ m.org = strTake (clean (if req.organization ≠ "" then
            req.organization else req.org)) MAX_ORG_LEN
        ∧ m.interest = strTake (clean (if req.interest ≠ "" then
            req.interest else req.topic)) MAX_INTEREST_LEN
        ∧ m.message = strTake (clean req.message) MAX_MESSAGE_LEN
        ∧ m.name.data.length ≤ MAX_NAME_LEN
        ∧ m.org.data.length ≤ MAX_ORG_LEN
        ∧ m.interest.data.length ≤ MAX_INTEREST_LEN
        ∧ m.message.data.length ≤ MAX_MESSAGE_LEN) := by
  have hlen : ∀ s n, (strTake (clean s) n).data.length ≤ n := by
    intro s n
    simp only [strTake, List.length_take]
    exact Nat.min_le_left _ _
  refine ⟨hlen, ?_⟩
  intro ext now st req m h
  have hm := handler_mail_inv ext now st req m h
  subst hm
  exact ⟨rfl, rfl, rfl, rfl, rfl, hlen _ _, hlen _ _, hlen _ _, hlen _ _⟩

/-- Witness for C5 at a concrete input. -/
theorem C5_witness :
    mailBase.name = strTake (clean reqBase.name) MAX_NAME_LEN
    ∧ mailBase.message.data.length ≤ MAX_MESSAGE_LEN := by
  have h := C5_trim_and_cap.2 extAll 0 stEmpty reqBase mailBase (by decide)
  exact ⟨h.1, h.2.2.2.2.2.2.2.2⟩

/-- The request of the C3 counterexample: honeypot holds a single space. -/
def reqHoneypot : Request := { reqBase with gotcha := " " }

/-- C3 counterexample: a request whose honeypot field is non-empty (a single
space) is not short-circuited by the honeypot gate: the handler goes on to
attempt the email send and records a rate-window entry, contradicting the
claim that every non-empty honeypot value yields a synthetic success with no
side effects. -/
theorem C3_counterexample :
    reqHoneypot.gotcha ≠ ""
    ∧ (handler extAll 0 stEmpty reqHoneypot).emailAttempted = true
    ∧ (handler extAll 0 stEmpty reqHoneypot).state ≠ stEmpty := by decide

/-- C3 (amended): for every POST request with a JSON content type whose
honeypot field is non-empty after trimming, the handler answers 200 ok with
no email attempt, no CAPTCHA call and the module state unchanged. -/
theorem C3_honeypot (ext : Ext) (now : Nat) (st : AbuseState) (req : Request)
    (hm : req.method = "POST")
    (hc : hasSubstr (strToLower req.contentType) "application/json" = true)
    (hg : jsTrim req.gotcha ≠ "") :
    handler ext now st req =
      ⟨200, true, none, false, none, false,
       [Gate.method, Gate.ctype, Gate.honeypot], st⟩ := by
  have hg0 : req.gotcha ≠ "" := by
    intro e
    exact hg (by rw [e]; rfl)
  simp [handler, hm, hc, hg, hg0]

/-- Witness for C3 (amended) at a concrete input. -/
theorem C3_witness :
    handler extAll 0 stEmpty { reqBase with gotcha := "bot-fill" } =
      ⟨200, true, none, false, none, false,
       [Gate.method, Gate.ctype, Gate.honeypot], stEmpty⟩ :=
  C3_honeypot extAll 0 stEmpty { reqBase with gotcha := "bot-fill" }
    (by decide) (by decide) (by decide)

/-! ## Map lemmas for the block list -/

theorem mapGet_map_set_of_mem (m : List (String × Nat)) (k : String) (v : Nat)
    (hany : m.any (fun p => p.1 == k) = true) :
    mapGet (m.map fun p => if p.1 == k then (k, v) else p) k = some v := by
  induction m with
  | nil => cases hany
  | cons p rest ih =>
      by_cases hp : (p.1 == k) = true
      · simp [mapGet, List.find?, hp]
      · have hany' : rest.any (fun p => p.1 == k) = true := by
          simp only [List.any_cons, hp, Bool.false_or] at hany
          exact hany
        have hmap : (p :: rest).map (fun p => if p.1 == k then (k, v) else p)
            = p :: rest.map (fun p => if p.1 == k then (k, v) else p) := by
          rw [List.map_cons, if_neg hp]
        rw [hmap]
        show (List.find? (fun p => p.1 == k) (p :: _)).map (·.2) = some v
        rw [List.find?_cons_of_neg _ (by simpa using hp)]
        exact ih hany'

theorem mapGet_append_of_not_mem (m : List (String × Nat)) (k : String)
    (v : Nat) (hany : m.any (fun p => p.1 == k) = false) :
    mapGet (m ++ [(k, v)]) k = some v := by
  induction m with
  | nil => simp [mapGet, List.find?]
  | cons p rest ih =>
      simp only [List.any_cons, Bool.or_eq_false_iff] at hany
      show (List.find? (fun p => p.1 == k) ((p :: rest) ++ _)).map (·.2) = some v
      rw [List.cons_append, List.find?_cons_of_neg _ (by simp [hany.1])]
      exact ih hany.2

theorem mapGet_mapSet (m : List (String × Nat)) (k : String) (v : Nat) :
    mapGet (mapSet m k v) k = some v := by
  unfold mapSet
  split
  · exact mapGet_map_set_of_mem m k v (by assumption)
  · rename_i hany
    exact mapGet_append_of_not_mem m k v (Bool.not_eq_true _ ▸ hany)

theorem mapGet_mapDelete (m : List (String × Nat)) (k : String) :
    mapGet (mapDelete m k) k = none := by
  induction m with
  | nil => rfl
  | cons p rest ih =>
      by_cases hp : (p.1 == k) = true
      · simpa [mapDelete, List.filter, hp] using ih
      · have := ih
        simp only [mapDelete, mapGet] at this ⊢
        simp [List.filter, hp, List.find?, this]

/-! ## Lemmas about isBlocked and markBad -/

theorem isBlocked_future (bl : List (String × Nat)) (ip : String) (now u : Nat)
    (hu : mapGet bl ip = some u) (hpos : 0 < u) (hfut : now < u) :
    isBlocked bl ip now = (true, bl) := by
  unfold isBlocked
  split
  · rename_i u' heq
    rw [hu] at heq
    injection heq with heq
    subst heq
    rw [if_pos ⟨by omega, hfut⟩]
  · rename_i heq
    rw [hu] at heq
    cases heq

theorem isBlocked_expired (bl : List (String × Nat)) (ip : String) (now u : Nat)
    (hu : mapGet bl ip = some u) (hpos : 0 < u) (hexp : u ≤ now) :
    isBlocked bl ip now = (false, mapDelete bl ip) := by
  unfold isBlocked
  split
  · rename_i u' heq
    rw [hu] at heq
    injection heq with heq
    subst heq
    rw [if_neg (by omega), if_pos ⟨by omega, hexp⟩]
  · rename_i heq
    rw [hu] at heq
    cases heq

theorem markBad_parts (bh : List Hit) (bl : List (String × Nat)) (ip : String)
    (now : Nat) :
    (markBad bh bl ip now).1 = markBadHits bh ip now
    ∧ (BAD_THRESHOLD ≤
        ((markBadHits bh ip now).filter fun h => h.ip == ip).length →
        (markBad bh bl ip now).2 = punish bl ip now)
    ∧ (((markBadHits bh ip now).filter fun h => h.ip == ip).length <
        BAD_THRESHOLD →
        (markBad bh bl ip now).2 = bl) := by
  refine ⟨?_, ?_, ?_⟩
  · simp only [markBad]
    split <;> rfl
  · intro h8
    simp only [markBad]
    rw [if_pos h8]
  · intro hlt
    simp only [markBad]
    rw [if_neg (by omega)]

theorem markBadHits_within (bh : List Hit) (ip : String) (now : Nat)
    (hall : ∀ h ∈ bh, now - h.time < BAD_WINDOW_MS) :
    markBadHits bh ip now = bh ++ [Hit.mk ip now] := by
  unfold markBadHits
  rw [List.filter_eq_self.mpr]
  intro h hm
  rcases List.mem_append.mp hm with hm | hm
  · exact decide_eq_true (hall h hm)
  · simp only [List.mem_singleton] at hm
    subst hm
    exact decide_eq_true (by simp only [BAD_WINDOW_MS]; omega)

theorem markBad_within (bh : List Hit) (bl : List (String × Nat)) (ip : String)
    (now : Nat) (hall : ∀ h ∈ bh, now - h.time < BAD_WINDOW_MS ∧ h.ip = ip) :
    markBad bh bl ip now =
      (bh ++ [Hit.mk ip now],
       if BAD_THRESHOLD ≤ bh.length + 1 then punish bl ip now else bl) := by
  have h1 : markBadHits bh ip now = bh ++ [Hit.mk ip now] :=
    markBadHits_within bh ip now fun h hm => (hall h hm).1
  have h2 : ((bh ++ [Hit.mk ip now]).filter fun h => h.ip == ip)
      = bh ++ [Hit.mk ip now] := by
    apply List.filter_eq_self.mpr
    intro h hm
    rcases List.mem_append.mp hm with hm | hm
    · simp [(hall h hm).2]
    · simp only [List.mem_singleton] at hm
      subst hm
      simp
  simp only [markBad, h1, h2, List.length_append, List.length_cons,
    List.length_nil]
  split <;> rfl

/-- Fold of successive `markBad` calls for one IP at the given times. -/
def runBad (bh : List Hit) (bl : List (String × Nat)) (ip : String) :
    List Nat → List Hit × List (String × Nat)
  | [] => (bh, bl)
  | t :: ts =>
      let r := markBad bh bl ip t
      runBad r.1 r.2 ip ts

set_option maxHeartbeats 1000000 in
theorem validateAndSend_status_ne_403 (ext : Ext) (now : Nat)
    (st2 : AbuseState) (req : Request) (ip : String) :
    (validateAndSend ext now st2 req ip).status ≠ 403 := by
  simp only [validateAndSend]
  repeat' split
  all_goals (dsimp only; omega)

set_option maxHeartbeats 1000000 in
theorem handler_not_403 (ext : Ext) (now : Nat) (st : AbuseState)
    (req : Request)
    (hbl : (isBlocked st.blocked (computeIp req) now).1 = false) :
    (handler ext now st req).status ≠ 403 := by
  simp only [handler]
  repeat' split
  all_goals first
    | (rename_i hb; rw [hbl] at hb; cases hb)
    | (exact validateAndSend_status_ne_403 _ _ _ _ _)
    | (dsimp only; omega)

theorem handler_blocked_403 (ext : Ext) (now : Nat) (st : AbuseState)
    (req : Request)
    (hm : req.method = "POST")
    (hc : hasSubstr (strToLower req.contentType) "application/json" = true)
    (hg : jsTrim req.gotcha = "")
    (hbl : (isBlocked st.blocked (computeIp req) now).1 = true) :
    handler ext now st req =
      ⟨403, false, some "IP temporarily blocked.", false, none, false,
       [Gate.method, Gate.ctype, Gate.honeypot, Gate.block],
       ⟨st.hits, (isBlocked st.blocked (computeIp req) now).2, st.badHits⟩⟩ := by
  simp [handler, hm, hc, hg, hbl]

/-- C2: `markBad` appends a timestamped bad event and prunes to ten minutes;
at eight or more surviving events for the IP it installs a block expiring
exactly one hour from now (otherwise the block map is untouched); while that
expiry is strictly in the future `isBlocked` is true and the handler answers
403 without side effects past the block gate; once the expiry has passed the
entry is evicted on lookup and the handler can no longer answer 403; eight
bad events inside the ten-minute window, starting from a clean state, produce
exactly that block. -/
theorem C2_block_escalation :
    (∀ bh bl ip now,
        (markBad bh bl ip now).1 = markBadHits bh ip now
        ∧ (BAD_THRESHOLD ≤
            ((markBadHits bh ip now).filter fun h => h.ip == ip).length →
            mapGet (markBad bh bl ip now).2 ip = some (now + BLOCK_MS))
        ∧ (((markBadHits bh ip now).filter fun h => h.ip == ip).length <
            BAD_THRESHOLD → (markBad bh bl ip now).2 = bl))
    ∧ (∀ bl ip now u, mapGet bl ip = some u → 0 < u → now < u →
        isBlocked bl ip now = (true, bl))
    ∧ (∀ bl ip now u, mapGet bl ip = some u → 0 < u → u ≤ now →
        isBlocked bl ip now = (false, mapDelete bl ip)
        ∧ mapGet (mapDelete bl ip) ip = none)
    ∧ (∀ ext now st req, req.method = "POST" →
        hasSubstr (strToLower req.contentType) "application/json" = true →
        jsTrim req.gotcha = "" →
        (isBlocked st.blocked (computeIp req) now).1 = true →
        (handler ext now st req).status = 403
        ∧ (handler ext now st req).error = some "IP temporarily blocked."
        ∧ (handler ext now st req).emailAttempted = false)
    ∧ (∀ ext now st req,
        (isBlocked st.blocked (computeIp req) now).1 = false →
        (handler ext now st req).status ≠ 403)
    ∧ (∀ ip t1 t2 t3 t4 t5 t6 t7 t8,
        t1 ≤ t2 → t2 ≤ t3 → t3 ≤ t4 → t4 ≤ t5 → t5 ≤ t6 → t6 ≤ t7 → t7 ≤ t8 →
        t8 < t1 + BAD_WINDOW_MS →
        (runBad [] [] ip [t1, t2, t3, t4, t5, t6, t7]).2 = []
        ∧ (runBad [] [] ip [t1, t2, t3, t4, t5, t6, t7, t8]).2 =
            [(ip, t8 + BLOCK_MS)]) := by
  refine ⟨?_, ?_, ?_, ?_, ?_, ?_⟩
  · intro bh bl ip now
    have hp := markBad_parts bh bl ip now
    refine ⟨hp.1, ?_, hp.2.2⟩
    intro h8
    rw [hp.2.1 h8]
    exact mapGet_mapSet bl ip (now + BLOCK_MS)
  · exact fun bl ip now u hu h0 hf => isBlocked_future bl ip now u hu h0 hf
  · intro bl ip now u hu h0 he
    exact ⟨isBlocked_expired bl ip now u hu h0 he, mapGet_mapDelete bl ip⟩
  · intro ext now st req hm hc hg hbl
    rw [handler_blocked_403 ext now st req hm hc hg hbl]
    exact ⟨rfl, rfl, rfl⟩
  · exact fun ext now st req hbl => handler_not_403 ext now st req hbl
  · intro ip t1 t2 t3 t4 t5 t6 t7 t8 h12 h23 h34 h45 h56 h67 h78 hw
    have hw600 : t8 < t1 + 600000 := by
      simpa only [BAD_WINDOW_MS] using hw
    have m1 : markBad [] [] ip t1 = ([Hit.mk ip t1], []) := by
      rw [markBad_within [] [] ip t1 (by intro h hm; cases hm)]
      simp [BAD_THRESHOLD]
    have m2 : markBad [Hit.mk ip t1] [] ip t2 =
        ([Hit.mk ip t1, Hit.mk ip t2], []) := by
      rw [markBad_within _ [] ip t2 ?_]
      · simp [BAD_THRESHOLD]
      · intro h hm
        simp only [List.mem_singleton] at hm
        subst hm
        exact ⟨by simp only [BAD_WINDOW_MS]; omega, rfl⟩
    have m3 : markBad [Hit.mk ip t1, Hit.mk ip t2] [] ip t3 =
        ([Hit.mk ip t1, Hit.mk ip t2, Hit.mk ip t3], []) := by
      rw [markBad_within _ [] ip t3 ?_]
      · simp [BAD_THRESHOLD]
      · intro h hm
        simp only [List.mem_cons, List.mem_singleton, List.not_mem_nil,
          or_false] at hm
        rcases hm with rfl | rfl <;>
          exact ⟨by simp only [BAD_WINDOW_MS]; omega, rfl⟩
    have m4 : markBad [Hit.mk ip t1, Hit.mk ip t2, Hit.mk ip t3] [] ip t4 =
        ([Hit.mk ip t1, Hit.mk ip t2, Hit.mk ip t3, Hit.mk ip t4], []) := by
      rw [markBad_within _ [] ip t4 ?_]
      · simp [BAD_THRESHOLD]
      · intro h hm
        simp only [List.mem_cons, List.mem_singleton, List.not_mem_nil,
          or_false] at hm
        rcases hm with rfl | rfl | rfl <;>
          exact ⟨by simp only [BAD_WINDOW_MS]; omega, rfl⟩
    have m5 : markBad [Hit.mk ip t1, Hit.mk ip t2, Hit.mk ip t3, Hit.mk ip t4]
        [] ip t5 =
        ([Hit.mk ip t1, Hit.mk ip t2, Hit.mk ip t3, Hit.mk ip t4,
          Hit.mk ip t5], []) := by
      rw [markBad_within _ [] ip t5 ?_]
      · simp [BAD_THRESHOLD]
      · intro h hm
        simp only [List.mem_cons, List.mem_singleton, List.not_mem_nil,
          or_false] at hm
        rcases hm with rfl | rfl | rfl | rfl <;>
          exact ⟨by simp only [BAD_WINDOW_MS]; omega, rfl⟩
    have m6 : markBad [Hit.mk ip t1, Hit.mk ip t2, Hit.mk ip t3, Hit.mk ip t4,
        Hit.mk ip t5] [] ip t6 =
        ([Hit.mk ip t1, Hit.mk ip t2, Hit.mk ip t3, Hit.mk ip t4,
          Hit.mk ip t5, Hit.mk ip t6], []) := by
      rw [markBad_within _ [] ip t6 ?_]
      · simp [BAD_THRESHOLD]
      · intro h hm
        simp only [List.mem_cons, List.mem_singleton, List.not_mem_nil,
          or_false] at hm
        rcases hm with rfl | rfl | rfl | rfl | rfl <;>
          exact ⟨by simp only [BAD_WINDOW_MS]; omega, rfl⟩
    have m7 : markBad [Hit.mk ip t1, Hit.mk ip t2, Hit.mk ip t3, Hit.mk ip t4,
        Hit.mk ip t5, Hit.mk ip t6] [] ip t7 =
        ([Hit.mk ip t1, Hit.mk ip t2, Hit.mk ip t3, Hit.mk ip t4,
          Hit.mk ip t5, Hit.mk ip t6, Hit.mk ip t7], []) := by
      rw [markBad_within _ [] ip t7 ?_]
      · simp [BAD_THRESHOLD]
      · intro h hm
        simp only [List.mem_cons, List.mem_singleton, List.not_mem_nil,
          or_false] at hm
        rcases hm with rfl | rfl | rfl | rfl | rfl | rfl <;>
          exact ⟨by simp only [BAD_WINDOW_MS]; omega, rfl⟩
    have m8 : markBad [Hit.mk ip t1, Hit.mk ip t2, Hit.mk ip t3, Hit.mk ip t4,
        Hit.mk ip t5, Hit.mk ip t6, Hit.mk ip t7] [] ip t8 =
        ([Hit.mk ip t1, Hit.mk ip t2, Hit.mk ip t3, Hit.mk ip t4,
          Hit.mk ip t5, Hit.mk ip t6, Hit.mk ip t7, Hit.mk ip t8],
         [(ip, t8 + BLOCK_MS)]) := by
      rw [markBad_within _ [] ip t8 ?_]
      · simp [BAD_THRESHOLD, punish, mapSet]
      · intro h hm
        simp only [List.mem_cons, List.mem_singleton, List.not_mem_nil,
          or_false] at hm
        rcases hm with rfl | rfl | rfl | rfl | rfl | rfl | rfl <;>
          exact ⟨by simp only [BAD_WINDOW_MS]; omega, rfl⟩
    constructor
    · simp only [runBad, m1, m2, m3, m4, m5, m6, m7]
    · simp only [runBad, m1, m2, m3, m4, m5, m6, m7, m8]

/-- Witness for C2 at concrete inputs: eight bad events at times 0..7 yield a
block until 7 + one hour, and that block is active at time 100. -/
theorem C2_witness :
    (runBad [] [] "9.9.9.9" [0, 1, 2, 3, 4, 5, 6, 7]).2 =
      [("9.9.9.9", 7 + BLOCK_MS)]
    ∧ isBlocked [("9.9.9.9", 7 + BLOCK_MS)] "9.9.9.9" 100 =
        (true, [("9.9.9.9", 7 + BLOCK_MS)]) := by
  refine ⟨?_, ?_⟩
  · exact (C2_block_escalation.2.2.2.2.2 "9.9.9.9" 0 1 2 3 4 5 6 7
      (by omega) (by omega) (by omega) (by omega) (by omega) (by omega)
      (by omega) (by simp only [BAD_WINDOW_MS]; omega)).2
  · exact C2_block_escalation.2.1 [("9.9.9.9", 7 + BLOCK_MS)] "9.9.9.9" 100
      (7 + BLOCK_MS) (by simp [mapGet, List.find?])
      (by simp only [BLOCK_MS]; omega) (by simp only [BLOCK_MS]; omega)

theorem rateLimited_within (hits : List Hit) (ip : String) (now : Nat)
    (hall : ∀ h ∈ hits, now - h.time < WINDOW_MS ∧ h.ip = ip) :
    rateLimited hits ip now =
      if MAX_PER_WINDOW ≤ hits.length then (true, hits)
      else (false, hits ++ [Hit.mk ip now]) := by
  have h1 : pruneHits now hits = hits := by
    unfold pruneHits
    exact List.filter_eq_self.mpr fun h hm => decide_eq_true (hall h hm).1
  have h2 : (hits.filter fun h => h.ip == ip) = hits :=
    List.filter_eq_self.mpr fun h hm => by simp [(hall h hm).2]
  simp only [rateLimited, h1, h2]

theorem handler_rate_429 (ext : Ext) (now : Nat) (st : AbuseState)
    (req : Request)
    (hm : req.method = "POST")
    (hc : hasSubstr (strToLower req.contentType) "application/json" = true)
    (hg : jsTrim req.gotcha = "")
    (hbl : (isBlocked st.blocked (computeIp req) now).1 = false)
    (hrl : (rateLimited st.hits (computeIp req) now).1 = true) :
    handler ext now st req =
      ⟨429, false, some "Too many requests, try again later.", false, none,
       false, [Gate.method, Gate.ctype, Gate.honeypot, Gate.block, Gate.rate],
       ⟨(rateLimited st.hits (computeIp req) now).2,
        (isBlocked st.blocked (computeIp req) now).2, st.badHits⟩⟩ := by
  simp [handler, hm, hc, hg, hbl, hrl]

set_option maxHeartbeats 1000000 in
theorem validateAndSend_status_ne_429 (ext : Ext) (now : Nat)
    (st2 : AbuseState) (req : Request) (ip : String) :
    (validateAndSend ext now st2 req ip).status ≠ 429 := by
  simp only [validateAndSend]
  repeat' split
  all_goals (dsimp only; omega)

set_option maxHeartbeats 1000000 in
theorem handler_not_429 (ext : Ext) (now : Nat) (st : AbuseState)
    (req : Request)
    (hrl : (rateLimited st.hits (computeIp req) now).1 = false) :
    (handler ext now st req).status ≠ 429 := by
  simp only [handler]
  repeat' split
  all_goals first
    | (rename_i hb; rw [hrl] at hb; cases hb)
    | (exact validateAndSend_status_ne_429 _ _ _ _ _)
    | (dsimp only; omega)

/-- Fold of successive `rateLimited` calls for one IP at the given times,
collecting the returned booleans. -/
def runCalls (hits : List Hit) (ip : String) : List Nat → List Bool × List Hit
  | [] => ([], hits)
  | t :: ts =>
      let r := rateLimited hits ip t
      let rest := runCalls r.2 ip ts
      (r.1 :: rest.1, rest.2)

/-- C1: `rateLimited` answers true exactly when at least five pruned
timestamps for the IP remain in the 60-second window, and otherwise appends
the current attempt; through the handler a rate-limited request is answered
429 and a non-rate-limited one never is; from a fresh window five attempts
within 60 seconds are accepted, the sixth in the same window is refused, and
an attempt 60 seconds past the oldest timestamp is accepted again. -/
theorem C1_rate_limiting :
    (∀ hits ip now,
        ((rateLimited hits ip now).1 = true ↔
          MAX_PER_WINDOW ≤
            ((pruneHits now hits).filter fun h => h.ip == ip).length)
        ∧ ((rateLimited hits ip now).1 = false →
            (rateLimited hits ip now).2
              = pruneHits now hits ++ [Hit.mk ip now]))
    ∧ (∀ ext now st req, req.method = "POST" →
        hasSubstr (strToLower req.contentType) "application/json" = true →
        jsTrim req.gotcha = "" →
        (isBlocked st.blocked (computeIp req) now).1 = false →
        (rateLimited st.hits (computeIp req) now).1 = true →
        (handler ext now st req).status = 429
        ∧ (handler ext now st req).error =
            some "Too many requests, try again later.")
    ∧ (∀ ext now st req,
        (rateLimited st.hits (computeIp req) now).1 = false →
        (handler ext now st req).status ≠ 429)
    ∧ (∀ ip t1 t2 t3 t4 t5 t6,
        t1 ≤ t2 → t2 ≤ t3 → t3 ≤ t4 → t4 ≤ t5 → t5 ≤ t6 →
        t6 < t1 + WINDOW_MS →
        (runCalls [] ip [t1, t2, t3, t4, t5, t6]).1 =
          [false, false, false, false, false, true]
        ∧ (runCalls [] ip [t1, t2, t3, t4, t5, t6]).2 =
          [Hit.mk ip t1, Hit.mk ip t2, Hit.mk ip t3, Hit.mk ip t4,
           Hit.mk ip t5]
        ∧ ∀ t7, t6 ≤ t7 → t1 + WINDOW_MS ≤ t7 →
            (rateLimited [Hit.mk ip t1, Hit.mk ip t2, Hit.mk ip t3,
              Hit.mk ip t4, Hit.mk ip t5] ip t7).1 = false) := by
  refine ⟨?_, ?_, ?_, ?_⟩
  · intro hits ip now
    constructor
    · simp only [rateLimited, pruneHits]
      split
      · rename_i h5
        exact ⟨fun _ => h5, fun _ => rfl⟩
      · rename_i h5
        exact ⟨fun hc => Bool.noConfusion hc, fun hc => absurd hc h5⟩
    · intro hf
      simp only [rateLimited, pruneHits] at hf ⊢
      split at hf
      · cases hf
      · rename_i h5
        rw [if_neg h5]
  · intro ext now st req hm hc hg hbl hrl
    rw [handler_rate_429 ext now st req hm hc hg hbl hrl]
    exact ⟨rfl, rfl⟩
  · exact fun ext now st req hrl => handler_not_429 ext now st req hrl
  · intro ip t1 t2 t3 t4 t5 t6 h12 h23 h34 h45 h56 hW
    have hW600 : t6 < t1 + 60000 := by simpa only [WINDOW_MS] using hW
    have s1 : rateLimited [] ip t1 = (false, [Hit.mk ip t1]) := by
      rw [rateLimited_within [] ip t1 (by intro h hm; cases hm)]
      simp [MAX_PER_WINDOW]
    have s2 : rateLimited [Hit.mk ip t1] ip t2 =
        (false, [Hit.mk ip t1, Hit.mk ip t2]) := by
      rw [rateLimited_within _ ip t2 ?_]
      · simp [MAX_PER_WINDOW]
      · intro h hm
        simp only [List.mem_singleton] at hm
        subst hm
        exact ⟨by simp only [WINDOW_MS]; omega, rfl⟩
    have s3 : rateLimited [Hit.mk ip t1, Hit.mk ip t2] ip t3 =
        (false, [Hit.mk ip t1, Hit.mk ip t2, Hit.mk ip t3]) := by
      rw [rateLimited_within _ ip t3 ?_]
      · simp [MAX_PER_WINDOW]
      · intro h hm
        simp only [List.mem_cons, List.mem_singleton, List.not_mem_nil,
          or_false] at hm
        rcases hm with rfl | rfl <;>
          exact ⟨by simp only [WINDOW_MS]; omega, rfl⟩
    have s4 : rateLimited [Hit.mk ip t1, Hit.mk ip t2, Hit.mk ip t3] ip t4 =
        (false, [Hit.mk ip t1, Hit.mk ip t2, Hit.mk ip t3, Hit.mk ip t4]) := by
      rw [rateLimited_within _ ip t4 ?_]
      · simp [MAX_PER_WINDOW]
      · intro h hm
        simp only [List.mem_cons, List.mem_singleton, List.not_mem_nil,
          or_false] at hm
        rcases hm with rfl | rfl | rfl <;>
          exact ⟨by simp only [WINDOW_MS]; omega, rfl⟩
    have s5 : rateLimited [Hit.mk ip t1, Hit.mk ip t2, Hit.mk ip t3,
        Hit.mk ip t4] ip t5 =
        (false, [Hit.mk ip t1, Hit.mk ip t2, Hit.mk ip t3, Hit.mk ip t4,
          Hit.mk ip t5]) := by
      rw [rateLimited_within _ ip t5 ?_]
      · simp [MAX_PER_WINDOW]
      · intro h hm
        simp only [List.mem_cons, List.mem_singleton, List.not_mem_nil,
          or_false] at hm
        rcases hm with rfl | rfl | rfl | rfl <;>
          exact ⟨by simp only [WINDOW_MS]; omega, rfl⟩
    have s6 : rateLimited [Hit.mk ip t1, Hit.mk ip t2, Hit.mk ip t3,
        Hit.mk ip t4, Hit.mk ip t5] ip t6 =
        (true, [Hit.mk ip t1, Hit.mk ip t2, Hit.mk ip t3, Hit.mk ip t4,
          Hit.mk ip t5]) := by
      rw [rateLimited_within _ ip t6 ?_]
      · simp [MAX_PER_WINDOW]
      · intro h hm
        simp only [List.mem_cons, List.mem_singleton, List.not_mem_nil,
          or_false] at hm
        rcases hm with rfl | rfl | rfl | rfl | rfl <;>
          exact ⟨by simp only [WINDOW_MS]; omega, rfl⟩
    refine ⟨?_, ?_, ?_⟩
    · simp only [runCalls, s1, s2, s3, s4, s5, s6]
    · simp only [runCalls, s1, s2, s3, s4, s5, s6]
    · intro t7 h67 hW7
      have hW7a : t1 + 60000 ≤ t7 := by simpa only [WINDOW_MS] using hW7
      have hdrop : pruneHits t7 [Hit.mk ip t1, Hit.mk ip t2, Hit.mk ip t3,
          Hit.mk ip t4, Hit.mk ip t5]
          = List.filter (fun h => decide (t7 - h.time < WINDOW_MS))
              [Hit.mk ip t2, Hit.mk ip t3, Hit.mk ip t4, Hit.mk ip t5] := by
        unfold pruneHits
        rw [List.filter_cons,
          if_neg (by simp only [decide_eq_true_eq, WINDOW_MS]; omega)]
      have hcnt : ((List.filter (fun h => decide (t7 - h.time < WINDOW_MS))
          [Hit.mk ip t2, Hit.mk ip t3, Hit.mk ip t4, Hit.mk ip t5]).filter
            fun h => h.ip == ip).length < MAX_PER_WINDOW := by
        have hb1 := List.length_filter_le (fun h => h.ip == ip)
          (List.filter (fun h => decide (t7 - h.time < WINDOW_MS))
            [Hit.mk ip t2, Hit.mk ip t3, Hit.mk ip t4, Hit.mk ip t5])
        have hb2 := List.length_filter_le
          (fun h => decide (t7 - h.time < WINDOW_MS))
          [Hit.mk ip t2, Hit.mk ip t3, Hit.mk ip t4, Hit.mk ip t5]
        simp only [List.length_cons, List.length_nil] at hb1 hb2
        simp only [MAX_PER_WINDOW]
        omega
      simp only [rateLimited, hdrop]
      rw [if_neg (by omega)]

/-- Witness for C1 at concrete inputs: six attempts at 0,10,...,50 ms give
five acceptances then a refusal, and an attempt at 60000 ms is accepted. -/
theorem C1_witness :
    (runCalls [] "8.8.8.8" [0, 10, 20, 30, 40, 50]).1 =
      [false, false, false, false, false, true]
    ∧ (rateLimited [Hit.mk "8.8.8.8" 0, Hit.mk "8.8.8.8" 10,
        Hit.mk "8.8.8.8" 20, Hit.mk "8.8.8.8" 30, Hit.mk "8.8.8.8" 40]
        "8.8.8.8" 60000).1 = false := by
  have h := C1_rate_limiting.2.2.2 "8.8.8.8" 0 10 20 30 40 50
    (by omega) (by omega) (by omega) (by omega) (by omega)
    (by simp only [WINDOW_MS]; omega)
  exact ⟨h.1, h.2.2 60000 (by omega) (by simp only [WINDOW_MS]; omega)⟩

/-- Preconditions under which a request reaches field validation: POST, JSON
content type, blank honeypot (after trimming), not blocked, not rate-limited,
a CAPTCHA token present, and the verification service answering success. -/
def ReachesValidation (ext : Ext) (now : Nat) (st : AbuseState)
    (req : Request) : Prop :=
  req.method = "POST"
  ∧ hasSubstr (strToLower req.contentType) "application/json" = true
  ∧ jsTrim req.gotcha = ""
  ∧ (isBlocked st.blocked (computeIp req) now).1 = false
  ∧ (rateLimited st.hits (computeIp req) now).1 = false
  ∧ req.turnstileToken ≠ ""
  ∧ ext.captchaOk = true

theorem handler_reaches (ext : Ext) (now : Nat) (st : AbuseState)
    (req : Request) (h : ReachesValidation ext now st req) :
    handler ext now st req =
      validateAndSend ext now
        ⟨(rateLimited st.hits (computeIp req) now).2,
         (isBlocked st.blocked (computeIp req) now).2, st.badHits⟩
        req (computeIp req) := by
  obtain ⟨h1, h2, h3, h4, h5, h6, h7⟩ := h
  simp [handler, h1, h2, h3, h4, h5, h6, h7]

theorem validateAndSend_forward (ext : Ext) (now : Nat) (st2 : AbuseState)
    (req : Request) (ip : String) :
    ((vName req = "" ∨ vEmail req = "" ∨ vMessage req = "") →
        validateAndSend ext now st2 req ip =
          ⟨400, false, some "name, email and message are required.", false,
           none, true, gateOrder, st2⟩)
    ∧ (vName req ≠ "" → vEmail req ≠ "" → vMessage req ≠ "" →
        emailRegexTest (vEmail req) = false →
        validateAndSend ext now st2 req ip =
          ⟨400, false, some "Invalid email.", false, none, true, gateOrder,
           ⟨st2.hits, (markBad st2.badHits st2.blocked ip now).2,
            markBadHits st2.badHits ip now⟩⟩)
    ∧ (vName req ≠ "" → vEmail req ≠ "" → vMessage req ≠ "" →
        emailRegexTest (vEmail req) = true →
        (hasTwoWords (vName req) = false ∨ looksGibberish (vName req) = true) →
        validateAndSend ext now st2 req ip =
          ⟨400, false, some "Invalid name.", false, none, true, gateOrder,
           ⟨st2.hits, (markBad st2.badHits st2.blocked ip now).2,
            markBadHits st2.badHits ip now⟩⟩)
    ∧ (vName req ≠ "" → vEmail req ≠ "" → vMessage req ≠ "" →
        emailRegexTest (vEmail req) = true →
        hasTwoWords (vName req) = true → looksGibberish (vName req) = false →
        vOrg req ≠ "" → looksGibberish (vOrg req) = true →
        validateAndSend ext now st2 req ip =
          ⟨400, false, some "Invalid organization.", false, none, true,
           gateOrder,
           ⟨st2.hits, (markBad st2.badHits st2.blocked ip now).2,
            markBadHits st2.badHits ip now⟩⟩)
    ∧ (vName req ≠ "" → vEmail req ≠ "" → vMessage req ≠ "" →
        emailRegexTest (vEmail req) = true →
        hasTwoWords (vName req) = true → looksGibberish (vName req) = false →
        (vOrg req = "" ∨ looksGibberish (vOrg req) = false) →
        ((vMessage req).data.length < 20 ∨ tooManyUrls (vMessage req) = true ∨
          looksGibberish (vMessage req) = true) →
        validateAndSend ext now st2 req ip =
          ⟨400, false, some "Invalid message.", false, none, true, gateOrder,
           ⟨st2.hits, (markBad st2.badHits st2.blocked ip now).2,
            markBadHits st2.badHits ip now⟩⟩)
    := by
  have hmb := (markBad_parts st2.badHits st2.blocked ip now).1
  refine ⟨?_, ?_, ?_, ?_, ?_⟩
  · intro h
    simp only [validateAndSend]
    rw [if_pos h]
  · intro h1 h2 h3 he
    simp only [validateAndSend]
    rw [if_neg (by simp [h1, h2, h3]), if_pos (by simp [he]), hmb]
  · intro h1 h2 h3 he hn
    simp only [validateAndSend]
    rw [if_neg (by simp [h1, h2, h3]), if_neg (by simp [he]),
      if_pos (by rcases hn with hn | hn <;> simp [hn]), hmb]
  · intro h1 h2 h3 he htw hng ho hog
    simp only [validateAndSend]
    rw [if_neg (by simp [h1, h2, h3]), if_neg (by simp [he]),
      if_neg (by simp [htw, hng]), if_pos ⟨ho, hog⟩, hmb]
  · intro h1 h2 h3 he htw hng ho hmsg
    simp only [validateAndSend]
    rw [if_neg (by simp [h1, h2, h3]), if_neg (by simp [he]),
      if_neg (by simp [htw, hng]),
      if_neg (by rcases ho with ho | ho <;> simp [ho]), if_pos hmsg, hmb]

set_option maxHeartbeats 1000000 in
theorem validateAndSend_required_badHits (ext : Ext) (now : Nat)
    (st2 : AbuseState) (req : Request) (ip : String) (r : HandlerResult)
    (hr : validateAndSend ext now st2 req ip = r)
    (herr : r.error = some "name, email and message are required.") :
    r.state.badHits = st2.badHits := by
  simp only [validateAndSend] at hr
  repeat' split at hr
  all_goals subst hr
  all_goals first
    | rfl
    | (dsimp only at herr; exact absurd herr (by decide))

set_option maxHeartbeats 1000000 in
theorem validateAndSend_org_guard (ext : Ext) (now : Nat) (st2 : AbuseState)
    (req : Request) (ip : String) (r : HandlerResult)
    (hr : validateAndSend ext now st2 req ip = r) (ho : vOrg req = "") :
    r.error ≠ some "Invalid organization." := by
  simp only [validateAndSend] at hr
  repeat' split at hr
  all_goals subst hr
  all_goals intro herr
  all_goals dsimp only at herr
  all_goals try exact absurd herr (by decide)
  rename_i hb
  exact absurd ho hb.1

set_option maxHeartbeats 1000000 in
theorem handler_org_guard (ext : Ext) (now : Nat) (st : AbuseState)
    (req : Request) (ho : vOrg req = "") :
    (handler ext now st req).error ≠ some "Invalid organization." := by
  simp only [handler]
  repeat' split
  all_goals first
    | (intro herr; dsimp only at herr; exact absurd herr (by decide))
    | (exact validateAndSend_org_guard _ _ _ _ _ _ rfl ho)

/-- The request of the C4 counterexample: a missing name. -/
def reqNoName : Request := { reqBase with name := "" }

/-- C4 counterexample: a request failing the required-fields part of the
validation gate (empty name) is rejected with 400 but no bad event is
recorded (`badHits` stays empty), contradicting the claim that every
field-validation failure records a bad event. -/
theorem C4_counterexample :
    (handler extAll 0 stEmpty reqNoName).status = 400
    ∧ (handler extAll 0 stEmpty reqNoName).error =
        some "name, email and message are required."
    ∧ (handler extAll 0 stEmpty reqNoName).state.badHits = [] := by decide

/-- C4 (amended): failures of the email-pattern check and of the
name/organization/message heuristics reject the request with 400 and record a
bad event via `markBad` for the caller's IP; a missing required field
(name, email or message) rejects with 400 but records no bad event. -/
theorem C4_validation_markBad :
    ∀ ext now st req, ReachesValidation ext now st req →
      ((vName req = "" ∨ vEmail req = "" ∨ vMessage req = "") →
        (handler ext now st req).status = 400
        ∧ (handler ext now st req).error =
            some "name, email and message are required."
        ∧ (handler ext now st req).state.badHits = st.badHits)
      ∧ (vName req ≠ "" → vEmail req ≠ "" → vMessage req ≠ "" →
          emailRegexTest (vEmail req) = false →
          (handler ext now st req).status = 400
          ∧ (handler ext now st req).error = some "Invalid email."
          ∧ (handler ext now st req).state.badHits =
              markBadHits st.badHits (computeIp req) now)
      ∧ (vName req ≠ "" → vEmail req ≠ "" → vMessage req ≠ "" →
          emailRegexTest (vEmail req) = true →
          (hasTwoWords (vName req) = false ∨
            looksGibberish (vName req) = true) →
          (handler ext now st req).status = 400
          ∧ (handler ext now st req).error = some "Invalid name."
          ∧ (handler ext now st req).state.badHits =
              markBadHits st.badHits (computeIp req) now)
      ∧ (vName req ≠ "" → vEmail req ≠ "" → vMessage req ≠ "" →
          emailRegexTest (vEmail req) = true →
          hasTwoWords (vName req) = true →
          looksGibberish (vName req) = false →
          vOrg req ≠ "" → looksGibberish (vOrg req) = true →
          (handler ext now st req).status = 400
          ∧ (handler ext now st req).error = some "Invalid organization."
          ∧ (handler ext now st req).state.badHits =
              markBadHits st.badHits (computeIp req) now)
      ∧ (vName req ≠ "" → vEmail req ≠ "" → vMessage req ≠ "" →
          emailRegexTest (vEmail req) = true →
          hasTwoWords (vName req) = true →
          looksGibberish (vName req) = false →
          (vOrg req = "" ∨ looksGibberish (vOrg req) = false) →
          ((vMessage req).data.length < 20 ∨
            tooManyUrls (vMessage req) = true ∨
            looksGibberish (vMessage req) = true) →
          (handler ext now st req).status = 400
          ∧ (handler ext now st req).error = some "Invalid message."
          ∧ (handler ext now st req).state.badHits =
              markBadHits st.badHits (computeIp req) now) := by
  intro ext now st req h
  rw [handler_reaches ext now st req h]
  have hf := validateAndSend_forward ext now
    ⟨(rateLimited st.hits (computeIp req) now).2,
     (isBlocked st.blocked (computeIp req) now).2, st.badHits⟩
    req (computeIp req)
  refine ⟨?_, ?_, ?_, ?_, ?_⟩
  · intro hmiss
    rw [hf.1 hmiss]
    exact ⟨rfl, rfl, rfl⟩
  · intro h1 h2 h3 he
    rw [hf.2.1 h1 h2 h3 he]
    exact ⟨rfl, rfl, rfl⟩
  · intro h1 h2 h3 he hn
    rw [hf.2.2.1 h1 h2 h3 he hn]
    exact ⟨rfl, rfl, rfl⟩
  · intro h1 h2 h3 he htw hng ho hog
    rw [hf.2.2.2.1 h1 h2 h3 he htw hng ho hog]
    exact ⟨rfl, rfl, rfl⟩
  · intro h1 h2 h3 he htw hng ho hmsg
    rw [hf.2.2.2.2 h1 h2 h3 he htw hng ho hmsg]
    exact ⟨rfl, rfl, rfl⟩

/-- The request of the C4 and C6 witnesses: an email failing the pattern. -/
def reqBadEmail : Request := { reqBase with email := "not-an-email" }

/-- Witness for C4 (amended) at a concrete input: the invalid-email failure
both rejects with 400 and records the bad event. -/
theorem C4_witness :
    (handler extAll 0 stEmpty reqBadEmail).status = 400
    ∧ (handler extAll 0 stEmpty reqBadEmail).error = some "Invalid email."
    ∧ (handler extAll 0 stEmpty reqBadEmail).state.badHits =
        markBadHits [] (computeIp reqBadEmail) 0 :=
  (C4_validation_markBad extAll 0 stEmpty reqBadEmail
    ⟨rfl, by decide, rfl, by decide, by decide, by decide, rfl⟩).2.1
    (by decide) (by decide) (by decide) (by decide)

/-- The request of the C6 counterexample: email fails the pattern but the
name is missing. -/
def reqC6 : Request := { reqBase with email := "not-an-email", name := "" }

/-- C6 counterexample: a request reaching field validation with email
"not-an-email" but an empty name is answered 400 with the required-fields
error, not the invalid-email error, contradicting "regardless of the
validity of the other fields". -/
theorem C6_counterexample :
    (handler extAll 0 stEmpty reqC6).status = 400
    ∧ (handler extAll 0 stEmpty reqC6).error ≠ some "Invalid email."
    ∧ (handler extAll 0 stEmpty reqC6).error =
        some "name, email and message are required." := by decide

/-- C6 (amended): for every request reaching field validation whose cleaned
name and message are non-empty and whose email field is "not-an-email", the
handler answers 400 with the invalid-email error, regardless of the other
fields' content. -/
theorem C6_invalid_email (ext : Ext) (now : Nat) (st : AbuseState)
    (req : Request) (h : ReachesValidation ext now st req)
    (hn : vName req ≠ "") (hm : vMessage req ≠ "")
    (he : req.email = "not-an-email") :
    (handler ext now st req).status = 400
    ∧ (handler ext now st req).error = some "Invalid email." := by
  have hve : vEmail req = "not-an-email" := by
    show strToLower (clean req.email) = _
    rw [he]
    decide
  rw [handler_reaches ext now st req h]
  rw [(validateAndSend_forward ext now
    ⟨(rateLimited st.hits (computeIp req) now).2,
     (isBlocked st.blocked (computeIp req) now).2, st.badHits⟩
    req (computeIp req)).2.1 hn (by rw [hve]; decide) hm (by rw [hve]; decide)]
  exact ⟨rfl, rfl⟩

/-- Witness for C6 (amended) at a concrete input. -/
theorem C6_witness :
    (handler extAll 0 stEmpty reqBadEmail).status = 400
    ∧ (handler extAll 0 stEmpty reqBadEmail).error = some "Invalid email." :=
  C6_invalid_email extAll 0 stEmpty reqBadEmail
    ⟨rfl, by decide, rfl, by decide, by decide, by decide, rfl⟩
    (by decide) (by decide) rfl

/-- C9: a non-empty organization failing the gibberish heuristic rejects the
request with 400 `{ok:false, error:"Invalid organization."}` and records a
bad event for the caller's IP, even though the organization field is
optional; an empty organization never produces that rejection. -/
theorem C9_org_gibberish :
    (∀ ext now st req, ReachesValidation ext now st req →
      vName req ≠ "" → vEmail req ≠ "" → vMessage req ≠ "" →
      emailRegexTest (vEmail req) = true →
      hasTwoWords (vName req) = true → looksGibberish (vName req) = false →
      vOrg req ≠ "" → looksGibberish (vOrg req) = true →
      (handler ext now st req).status = 400
      ∧ (handler ext now st req).ok = false
      ∧ (handler ext now st req).error = some "Invalid organization."
      ∧ (handler ext now st req).state.badHits =
          markBadHits st.badHits (computeIp req) now)
    ∧ (∀ ext now st req, vOrg req = "" →
        (handler ext now st req).error ≠ some "Invalid organization.") := by
  constructor
  · intro ext now st req h h1 h2 h3 he htw hng ho hog
    rw [handler_reaches ext now st req h]
    rw [(validateAndSend_forward ext now
      ⟨(rateLimited st.hits (computeIp req) now).2,
       (isBlocked st.blocked (computeIp req) now).2, st.badHits⟩
      req (computeIp req)).2.2.2.1 h1 h2 h3 he htw hng ho hog]
    exact ⟨rfl, rfl, rfl, rfl⟩
  · exact fun ext now st req ho => handler_org_guard ext now st req ho

/-- The request of the C9 witness: a gibberish organization value. -/
def reqGibberishOrg : Request := { reqBase with organization := "zzgkjqrw xx" }

/-- Witness for C9 at a concrete input. -/
theorem C9_witness :
    (handler extAll 0 stEmpty reqGibberishOrg).status = 400
    ∧ (handler extAll 0 stEmpty reqGibberishOrg).ok = false
    ∧ (handler extAll 0 stEmpty reqGibberishOrg).error =
        some "Invalid organization."
    ∧ (handler extAll 0 stEmpty reqGibberishOrg).state.badHits =
        markBadHits [] (computeIp reqGibberishOrg) 0 :=
  C9_org_gibberish.1 extAll 0 stEmpty reqGibberishOrg
    ⟨rfl, by decide, rfl, by decide, by decide, by decide, rfl⟩
    (by decide) (by decide) (by decide) (by decide) (by decide) (by decide)
    (by decide) (by decide)

set_option maxHeartbeats 1000000 in
theorem validateAndSend_trace (ext : Ext) (now : Nat) (st2 : AbuseState)
    (req : Request) (ip : String) :
    (validateAndSend ext now st2 req ip).trace = gateOrder
    ∧ (validateAndSend ext now st2 req ip).captchaCalled = true := by
  simp only [validateAndSend]
  repeat' split
  all_goals exact ⟨rfl, rfl⟩

/-- C7: the gates run in the order method, content type, honeypot, IP block,
rate limit, CAPTCHA, field validation, stopping at the first failure: the
gate trace is always a prefix of that order, the external CAPTCHA call is
made only when the first five gates pass, the CAPTCHA gate is entered exactly
when the first five gates pass, and field validation is entered exactly when
additionally a token is present and verification succeeds. -/
theorem C7_gate_order :
    ∀ ext now st req,
      (∃ rest, gateOrder = (handler ext now st req).trace ++ rest)
      ∧ ((handler ext now st req).captchaCalled = true →
          req.method = "POST"
          ∧ hasSubstr (strToLower req.contentType) "application/json" = true
          ∧ ¬ (req.gotcha ≠ "" ∧ jsTrim req.gotcha ≠ "")
          ∧ (isBlocked st.blocked (computeIp req) now).1 = false
          ∧ (rateLimited st.hits (computeIp req) now).1 = false)
      ∧ (Gate.captcha ∈ (handler ext now st req).trace ↔
          (req.method = "POST"
           ∧ hasSubstr (strToLower req.contentType) "application/json" = true
           ∧ ¬ (req.gotcha ≠ "" ∧ jsTrim req.gotcha ≠ "")
           ∧ (isBlocked st.blocked (computeIp req) now).1 = false
           ∧ (rateLimited st.hits (computeIp req) now).1 = false))
      ∧ (Gate.fields ∈ (handler ext now st req).trace ↔
          (req.method = "POST"
           ∧ hasSubstr (strToLower req.contentType) "application/json" = true
           ∧ ¬ (req.gotcha ≠ "" ∧ jsTrim req.gotcha ≠ "")
           ∧ (isBlocked st.blocked (computeIp req) now).1 = false
           ∧ (rateLimited st.hits (computeIp req) now).1 = false
           ∧ req.turnstileToken ≠ ""
           ∧ ext.captchaOk = true)) := by
  intro ext now st req
  by_cases h1 : req.method = "POST"
  case neg =>
    have hh : handler ext now st req =
        ⟨405, false, some "Method not allowed", false, none, false,
         [Gate.method], st⟩ := by
      simp [handler, h1]
    rw [hh]
    refine ⟨⟨[Gate.ctype, Gate.honeypot, Gate.block, Gate.rate, Gate.captcha,
      Gate.fields], rfl⟩, fun hc => Bool.noConfusion hc, ?_, ?_⟩
    · exact ⟨fun hmem => by dsimp only at hmem; exact absurd hmem (by decide),
        fun hcond => absurd hcond.1 h1⟩
    · exact ⟨fun hmem => by dsimp only at hmem; exact absurd hmem (by decide),
        fun hcond => absurd hcond.1 h1⟩
  by_cases h2 : hasSubstr (strToLower req.contentType) "application/json" = true
  case neg =>
    have hh : handler ext now st req =
        ⟨400, false, some "Send JSON body", false, none, false,
         [Gate.method, Gate.ctype], st⟩ := by
      simp [handler, h1, h2]
    rw [hh]
    refine ⟨⟨[Gate.honeypot, Gate.block, Gate.rate, Gate.captcha,
      Gate.fields], rfl⟩, fun hc => Bool.noConfusion hc, ?_, ?_⟩
    · exact ⟨fun hmem => by dsimp only at hmem; exact absurd hmem (by decide),
        fun hcond => absurd hcond.2.1 h2⟩
    · exact ⟨fun hmem => by dsimp only at hmem; exact absurd hmem (by decide),
        fun hcond => absurd hcond.2.1 h2⟩
  by_cases h3 : req.gotcha ≠ "" ∧ jsTrim req.gotcha ≠ ""
  case pos =>
    have hh : handler ext now st req =
        ⟨200, true, none, false, none, false,
         [Gate.method, Gate.ctype, Gate.honeypot], st⟩ := by
      simp [handler, h1, h2, h3]
    rw [hh]
    refine ⟨⟨[Gate.block, Gate.rate, Gate.captcha, Gate.fields], rfl⟩,
      fun hc => Bool.noConfusion hc, ?_, ?_⟩
    · exact ⟨fun hmem => by dsimp only at hmem; exact absurd hmem (by decide),
        fun hcond => absurd h3 hcond.2.2.1⟩
    · exact ⟨fun hmem => by dsimp only at hmem; exact absurd hmem (by decide),
        fun hcond => absurd h3 hcond.2.2.1⟩
  by_cases h4 : (isBlocked st.blocked (computeIp req) now).1 = true
  case pos =>
    have hh : handler ext now st req =
        ⟨403, false, some "IP temporarily blocked.", false, none, false,
         [Gate.method, Gate.ctype, Gate.honeypot, Gate.block],
         ⟨st.hits, (isBlocked st.blocked (computeIp req) now).2,
          st.badHits⟩⟩ := by
      simp [handler, h1, h2, h3, h4]
    rw [hh]
    refine ⟨⟨[Gate.rate, Gate.captcha, Gate.fields], rfl⟩,
      fun hc => Bool.noConfusion hc, ?_, ?_⟩
    · refine ⟨fun hmem => by dsimp only at hmem; exact absurd hmem (by decide),
        fun hcond => ?_⟩
      rw [h4] at hcond
      exact Bool.noConfusion hcond.2.2.2.1
    · refine ⟨fun hmem => by dsimp only at hmem; exact absurd hmem (by decide),
        fun hcond => ?_⟩
      rw [h4] at hcond
      exact Bool.noConfusion hcond.2.2.2.1
  have h4f : (isBlocked st.blocked (computeIp req) now).1 = false := by
    simpa using h4
  by_cases h5 : (rateLimited st.hits (computeIp req) now).1 = true
  case pos =>
    have hh : handler ext now st req =
        ⟨429, false, some "Too many requests, try again later.", false, none,
         false, [Gate.method, Gate.ctype, Gate.honeypot, Gate.block, Gate.rate],
         ⟨(rateLimited st.hits (computeIp req) now).2,
          (isBlocked st.blocked (computeIp req) now).2, st.badHits⟩⟩ := by
      simp [handler, h1, h2, h3, h4f, h5]
    rw [hh]
    refine ⟨⟨[Gate.captcha, Gate.fields], rfl⟩,
      fun hc => Bool.noConfusion hc, ?_, ?_⟩
    · refine ⟨fun hmem => by dsimp only at hmem; exact absurd hmem (by decide),
        fun hcond => ?_⟩
      rw [h5] at hcond
      exact Bool.noConfusion hcond.2.2.2.2
    · refine ⟨fun hmem => by dsimp only at hmem; exact absurd hmem (by decide),
        fun hcond => ?_⟩
      rw [h5] at hcond
      exact Bool.noConfusion hcond.2.2.2.2.1
  have h5f : (rateLimited st.hits (computeIp req) now).1 = false := by
    simpa using h5
  by_cases h6 : req.turnstileToken = ""
  case pos =>
    have hh : handler ext now st req =
        ⟨400, false, some "missing_turnstile_token", false, none, false,
         [Gate.method, Gate.ctype, Gate.honeypot, Gate.block, Gate.rate,
          Gate.captcha],
         ⟨(rateLimited st.hits (computeIp req) now).2,
          (markBad st.badHits (isBlocked st.blocked (computeIp req) now).2
            (computeIp req) now).2,
          (markBad st.badHits (isBlocked st.blocked (computeIp req) now).2
            (computeIp req) now).1⟩⟩ := by
      simp [handler, h1, h2, h3, h4f, h5f, h6]
    rw [hh]
    refine ⟨⟨[Gate.fields], rfl⟩, fun hc => Bool.noConfusion hc, ?_, ?_⟩
    · exact ⟨fun _ => ⟨h1, h2, h3, h4f, h5f⟩,
        fun _ => by dsimp only; decide⟩
    · exact ⟨fun hmem => by dsimp only at hmem; exact absurd hmem (by decide),
        fun hcond => absurd h6 hcond.2.2.2.2.2.1⟩
  by_cases h7 : ext.captchaOk = true
  case neg =>
    have h7f : ext.captchaOk = false := by simpa using h7
    have hh : handler ext now st req =
        ⟨400, false, some "turnstile_failed", false, none, true,
         [Gate.method, Gate.ctype, Gate.honeypot, Gate.block, Gate.rate,
          Gate.captcha],
         ⟨(rateLimited st.hits (computeIp req) now).2,
          (markBad st.badHits (isBlocked st.blocked (computeIp req) now).2
            (computeIp req) now).2,
          (markBad st.badHits (isBlocked st.blocked (computeIp req) now).2
            (computeIp req) now).1⟩⟩ := by
      simp [handler, h1, h2, h3, h4f, h5f, h6, h7f]
    rw [hh]
    refine ⟨⟨[Gate.fields], rfl⟩, fun _ => ⟨h1, h2, h3, h4f, h5f⟩, ?_, ?_⟩
    · exact ⟨fun _ => ⟨h1, h2, h3, h4f, h5f⟩,
        fun _ => by dsimp only; decide⟩
    · exact ⟨fun hmem => by dsimp only at hmem; exact absurd hmem (by decide),
        fun hcond => absurd hcond.2.2.2.2.2.2 h7⟩
  have h3' : jsTrim req.gotcha = "" := by
    by_cases hg : req.gotcha = ""
    · rw [hg]; rfl
    · by_contra hne
      exact h3 ⟨hg, hne⟩
  have hh := handler_reaches ext now st req ⟨h1, h2, h3', h4f, h5f, h6, h7⟩
  have ht := validateAndSend_trace ext now
    ⟨(rateLimited st.hits (computeIp req) now).2,
     (isBlocked st.blocked (computeIp req) now).2, st.badHits⟩
    req (computeIp req)
  rw [hh]
  refine ⟨⟨[], by rw [ht.1, List.append_nil]⟩,
    fun _ => ⟨h1, h2, h3, h4f, h5f⟩, ?_, ?_⟩
  · exact ⟨fun _ => ⟨h1, h2, h3, h4f, h5f⟩, fun _ => by rw [ht.1]; decide⟩
  · exact ⟨fun _ => ⟨h1, h2, h3, h4f, h5f, h6, h7⟩,
      fun _ => by rw [ht.1]; decide⟩

/-- Witness for C7 at a concrete input: a GET request never triggers the
CAPTCHA call. -/
theorem C7_witness :
    (handler extAll 0 stEmpty { reqBase with method := "GET" }).captchaCalled
      ≠ true :=
  fun hc =>
    absurd ((C7_gate_order extAll 0 stEmpty
      { reqBase with method := "GET" }).2.1 hc).1 (by decide)

/-- Witness for C10 at a concrete input: the mail composed for the benign
request carries exactly its cleaned fields. -/
theorem C10_witness :
    mailBase = MailData.mk (vName reqBase) (vEmail reqBase) (vOrg reqBase)
      (vInterest reqBase) (vMessage reqBase) (computeIp reqBase) :=
  C10_escapeHtml_safety.2.1 extAll 0 stEmpty reqBase mailBase (by decide)

end SustTech
